import Mathlib

/-!
Shallow embedding of the Telco-Customer-Churn batch pipeline
(`scripts/transformation.py`, `scripts/modeling.py`, `orchestrator.py`).

Numeric cells are modelled as rationals (pandas float64 values in the
source), machine-level rounding aside; missing values (NaN) as `Option`;
the relational store as an explicit state value.  Definitions are
transcribed statement by statement from the Python source; definitions
whose doc comment starts with "Modelled from the spec" follow the
specification's words instead and exist only to be compared with the
code-derived definitions.
-/

/-- One row of the bronze CSV file, fields exactly as in the raw Kaggle
schema (all cells are read as text except `SeniorCitizen`, which the CSV
reader types as a small integer). -/
structure RawRow where
  customerID : String
  gender : String
  SeniorCitizen : Nat
  Partner : String
  Dependents : String
  tenure : String
  PhoneService : String
  MultipleLines : String
  InternetService : String
  OnlineSecurity : String
  OnlineBackup : String
  DeviceProtection : String
  TechSupport : String
  StreamingTV : String
  StreamingMovies : String
  Contract : String
  PaperlessBilling : String
  PaymentMethod : String
  MonthlyCharges : String
  TotalCharges : String
  Churn : String
deriving DecidableEq, Repr

/-- One cleaned row after `clean_and_transform` (transformation.py lines
92-183): snake_case fields, typed values, boolean columns nullable
(`none` models pandas NaN produced by an unmapped value). -/
structure CleanRow where
  customer_id : String
  gender : String
  senior_citizen : Option Bool
  partner : Option Bool
  dependents : Option Bool
  tenure : Int
  phone_service : Option Bool
  multiple_lines : String
  internet_service : String
  online_security : String
  online_backup : String
  device_protection : String
  tech_support : String
  streaming_tv : String
  streaming_movies : String
  contract_type : String
  paperless_billing : Option Bool
  payment_method : String
  monthly_charges : ℚ
  total_charges : ℚ
  avg_monthly_revenue : ℚ
  customer_segment : String
  churned : Option Bool
deriving DecidableEq, Repr

/-- Drop the leading and trailing space characters of a character list
(the whitespace stripping `pd.to_numeric` applies to string cells). -/
def trimChars (cs : List Char) : List Char :=
  ((cs.dropWhile (fun c => c = ' ')).reverse.dropWhile (fun c => c = ' ')).reverse

/-- Value of a digit string, most significant first. -/
def digitsVal (cs : List Char) : Nat :=
  cs.foldl (fun a c => 10 * a + (c.toNat - 48)) 0

/-- Parse an unsigned decimal literal (`"29"`, `"29.85"`, `"29."`,
`".85"`); `none` models the NaN that `pd.to_numeric(errors='coerce')`
produces for an unparseable cell. -/
def parseUnsigned (cs : List Char) : Option ℚ :=
  let ip := cs.takeWhile Char.isDigit
  let rest := cs.dropWhile Char.isDigit
  match rest with
  | [] => if ip.isEmpty then none else some (digitsVal ip : ℚ)
  | '.' :: fp =>
      if fp.all Char.isDigit && !(ip.isEmpty && fp.isEmpty) then
        some ((digitsVal ip : ℚ) + (digitsVal fp : ℚ) / (10 : ℚ) ^ fp.length)
      else none
  | _ => none

/-- Embedding of `pd.to_numeric(s, errors='coerce')` on one text cell
(decimal literals with optional sign and surrounding spaces; `none` is
NaN). -/
def to_numeric (s : String) : Option ℚ :=
  match trimChars s.toList with
  | '-' :: cs => (parseUnsigned cs).map (fun q => -q)
  | '+' :: cs => parseUnsigned cs
  | cs => parseUnsigned cs

/-- Truncation toward zero: the conversion `.astype(int)` applies to a
float64 value. -/
def truncQ (q : ℚ) : Int :=
  if 0 ≤ q then ⌊q⌋ else ⌈q⌉

/-- Line 135: `pd.to_numeric(df_clean['tenure'], errors='coerce').fillna(0).astype(int)`. -/
def coerce_tenure (s : String) : Int :=
  truncQ ((to_numeric s).getD 0)

/-- Line 136: `pd.to_numeric(df_clean['monthly_charges'], errors='coerce').fillna(0)`. -/
def coerce_charge (s : String) : ℚ :=
  (to_numeric s).getD 0

/-- Lines 123-124 (and the re-coercion on line 137, which is the identity
on an already numeric column): replace the whole-cell value `' '` by
`'0'`, then `pd.to_numeric(..., errors='coerce').fillna(0)`. -/
def coerce_total (s : String) : ℚ :=
  (to_numeric (if s = " " then "0" else s)).getD 0

/-- Line 140: `boolean_mapping = {'Yes': True, 'No': False, 'No phone
service': False, 'No internet service': False}`; `Series.map` sends any
key outside the dict to NaN (`none`). -/
def boolean_mapping (s : String) : Option Bool :=
  if s = "Yes" then some true
  else if s = "No" then some false
  else if s = "No phone service" then some false
  else if s = "No internet service" then some false
  else none

/-- Line 142: `df_clean['senior_citizen'].map({1: True, 0: False})`. -/
def senior_map (n : Nat) : Option Bool :=
  if n = 1 then some true else if n = 0 then some false else none

/-- Line 149: `df_clean['churn'].map({'Yes': True, 'No': False})`. -/
def churn_map (s : String) : Option Bool :=
  if s = "Yes" then some true else if s = "No" then some false else none

/-- Lowercase one ASCII character (model of `str.lower` per character). -/
def lowerChar (c : Char) : Char :=
  if 'A' ≤ c ∧ c ≤ 'Z' then Char.ofNat (c.toNat + 32) else c

/-- Uppercase one ASCII character. -/
def upperChar (c : Char) : Char :=
  if 'a' ≤ c ∧ c ≤ 'z' then Char.ofNat (c.toNat - 32) else c

/-- Model of Python `str.lower()` for ASCII text. -/
def toLowerStr (s : String) : String :=
  String.mk (s.toList.map lowerChar)

/-- Helper for `str_title`: the Boolean argument records whether the
previous character was alphabetic. -/
def titleGo : Bool → List Char → List Char
  | _, [] => []
  | prev, c :: cs =>
      (if c.isAlpha then (if prev then lowerChar c else upperChar c) else c)
        :: titleGo c.isAlpha cs

/-- Line 156: `df_clean['gender'].str.title()` (uppercase each letter that
follows a non-letter, lowercase the rest). -/
def str_title (s : String) : String :=
  String.mk (titleGo false s.toList)

/-- Lines 159-162: collapse the sentinel `'No internet service'` of the six
add-on service columns to `'No'`. -/
def replace_no_internet (s : String) : String :=
  if s = "No internet service" then "No" else s

/-- Line 164: collapse `'No phone service'` of `multiple_lines` to `'No'`. -/
def replace_no_phone (s : String) : String :=
  if s = "No phone service" then "No" else s

/-- Lines 170-174: `np.where(tenure > 0, total_charges / tenure,
monthly_charges)`. -/
def avg_revenue (tenure : Int) (total monthly : ℚ) : ℚ :=
  if 0 < tenure then total / (tenure : ℚ) else monthly

/-- Lines 177-183: `pd.cut(tenure, bins=[0, 12, 36, 100], labels=['New',
'Growing', 'Loyal'], include_lowest=True).astype(str)`.  `include_lowest`
closes the first bin on the left; a value outside `[0, 100]` falls in no
bin, becomes NaN, and `astype(str)` renders it as the string `"nan"`. -/
def customer_segment (tenure : Int) : String :=
  if 0 ≤ tenure ∧ tenure ≤ 12 then "New"
  else if 12 < tenure ∧ tenure ≤ 36 then "Growing"
  else if 36 < tenure ∧ tenure ≤ 100 then "Loyal"
  else "nan"

/-- Steps 1-5 of `clean_and_transform` (lines 92-183), which are all
row-local column operations: rename, null handling, type coercion,
categorical standardization, derived fields. -/
def transformRow (r : RawRow) : CleanRow :=
  let tenure := coerce_tenure r.tenure
  let monthly_charges := coerce_charge r.MonthlyCharges
  let total_charges := coerce_total r.TotalCharges
  { customer_id := r.customerID
    gender := str_title r.gender
    senior_citizen := senior_map r.SeniorCitizen
    partner := boolean_mapping r.Partner
    dependents := boolean_mapping r.Dependents
    tenure := tenure
    phone_service := boolean_mapping r.PhoneService
    multiple_lines := replace_no_phone r.MultipleLines
    internet_service := r.InternetService
    online_security := replace_no_internet r.OnlineSecurity
    online_backup := replace_no_internet r.OnlineBackup
    device_protection := replace_no_internet r.DeviceProtection
    tech_support := replace_no_internet r.TechSupport
    streaming_tv := replace_no_internet r.StreamingTV
    streaming_movies := replace_no_internet r.StreamingMovies
    contract_type := r.Contract
    paperless_billing := boolean_mapping r.PaperlessBilling
    payment_method := r.PaymentMethod
    monthly_charges := monthly_charges
    total_charges := total_charges
    avg_monthly_revenue := avg_revenue tenure total_charges monthly_charges
    customer_segment := customer_segment tenure
    churned := churn_map r.Churn }

set_option maxRecDepth 100000

/-- Line 189: `df_clean['customer_id'].duplicated().sum()` — the number of
rows whose `customer_id` already occurred in an earlier row.  The `seen`
argument carries the ids of the rows already scanned. -/
def duplicatedCountGo (seen : List String) : List CleanRow → Nat
  | [] => 0
  | r :: rs =>
      if r.customer_id ∈ seen then 1 + duplicatedCountGo seen rs
      else duplicatedCountGo (r.customer_id :: seen) rs

/-- Duplicate count of a whole frame (line 189). -/
def duplicatedCount (rows : List CleanRow) : Nat :=
  duplicatedCountGo [] rows

/-- Line 192: `df_clean.drop_duplicates(subset=['customer_id'],
keep='first')` — keep each row whose id has not occurred before. -/
def drop_duplicates (seen : List String) : List CleanRow → List CleanRow
  | [] => []
  | r :: rs =>
      if r.customer_id ∈ seen then drop_duplicates seen rs
      else r :: drop_duplicates (r.customer_id :: seen) rs

/-- Lines 189-192: the duplicate-removal step, guarded by
`if duplicates > 0`. -/
def dedupStage (rows : List CleanRow) : List CleanRow :=
  if 0 < duplicatedCount rows then drop_duplicates [] rows else rows

/-- Line 195: `(df_clean['tenure'] < 0).sum()`. -/
def invalidTenureCount (rows : List CleanRow) : Nat :=
  rows.countP (fun r => decide (r.tenure < 0))

/-- Line 196: `(df_clean['monthly_charges'] < 0).sum()`. -/
def invalidChargesCount (rows : List CleanRow) : Nat :=
  rows.countP (fun r => decide (r.monthly_charges < 0))

/-- Line 200: `df_clean.loc[df_clean['tenure'] < 0, 'tenure'] = 0` applied
to one row. -/
def clampTenure (r : CleanRow) : CleanRow :=
  if r.tenure < 0 then { r with tenure := 0 } else r

/-- Line 204: `df_clean.loc[df_clean['monthly_charges'] < 0,
'monthly_charges'] = 0` applied to one row. -/
def clampCharges (r : CleanRow) : CleanRow :=
  if r.monthly_charges < 0 then { r with monthly_charges := 0 } else r

/-- Transformation metrics logged by `clean_and_transform` (lines 90,
189, 195-196, 207-208): the in-memory counts of the Data-Quality Gate. -/
structure TransformReport where
  initial_rows : Nat
  final_rows : Nat
  rows_removed : Nat
  duplicates : Nat
  invalid_tenure : Nat
  invalid_charges : Nat
deriving DecidableEq, Repr

/-- Lines 74-224: `clean_and_transform(df)`.  Steps 1-5 are the row-wise
`transformRow`; step 6 removes duplicates (guarded) and clamps negative
`tenure` / `monthly_charges` (each guarded by its count, both counts
taken before either clamp); step 7 assembles the summary metrics. -/
def clean_and_transform (df : List RawRow) : List CleanRow × TransformReport :=
  let initial_rows := df.length
  let df1 := df.map transformRow
  let duplicates := duplicatedCount df1
  let df2 := dedupStage df1
  let invalid_tenure := invalidTenureCount df2
  let invalid_charges := invalidChargesCount df2
  let df3 := if 0 < invalid_tenure then df2.map clampTenure else df2
  let df4 := if 0 < invalid_charges then df3.map clampCharges else df3
  let final_rows := df4.length
  (df4,
    { initial_rows := initial_rows
      final_rows := final_rows
      rows_removed := initial_rows - final_rows
      duplicates := duplicates
      invalid_tenure := invalid_tenure
      invalid_charges := invalid_charges })

/-- Embedding of the call `clean_and_transform(df)` as the caller sees
it: the first component is the caller's `df` object after the call
returns.  Line 87 (`df_clean = df.copy()`) copies the frame; every
subsequent statement of the function body (lines 117-224, including the
`inplace=True` rename and the `.loc` assignments) targets `df_clean`
only, so the caller's object is handed back unchanged. -/
def clean_and_transform_call (df : List RawRow) :
    List RawRow × (List CleanRow × TransformReport) :=
  let df_clean := df
  (df, clean_and_transform df_clean)

/-- One row of `silver.customers_staging`: a cleaned record plus the
`ingestion_timestamp` column added at line 259 (the wall-clock instant is
abstracted as a number supplied by the caller). -/
structure SilverRow where
  row : CleanRow
  ingestion_timestamp : Nat
deriving DecidableEq, Repr

/-- Lines 248-289: `load_to_silver(df, engine)`.  The staging table is the
explicit state; `df.to_sql(..., if_exists='replace')` discards whatever
the table held before and writes exactly the new record set (the
column-order selection on lines 262-271 only permutes columns and is
value-irrelevant in the record model). -/
def load_to_silver (df : List CleanRow) (ts : Nat)
    (_prev : Option (List SilverRow)) : Option (List SilverRow) :=
  some (df.map (fun r => { row := r, ingestion_timestamp := ts }))

/-- Insert a string into an ascending list (helper for the `ORDER BY` of
the segment-distribution query). -/
def insertSorted (s : String) : List String → List String
  | [] => [s]
  | t :: ts => if s ≤ t then s :: t :: ts else t :: insertSorted s ts

/-- Sort strings ascending (model of `ORDER BY customer_segment`). -/
def sortStrings (l : List String) : List String :=
  l.foldr insertSorted []

/-- Lines 309-314: `SELECT customer_segment, COUNT(*) ... GROUP BY
customer_segment ORDER BY customer_segment`. -/
def segmentDist (table : List SilverRow) : List (String × Nat) :=
  (sortStrings ((table.map (fun r => r.row.customer_segment)).dedup)).map
    (fun s => (s, table.countP (fun r => r.row.customer_segment == s)))

/-- Counts returned by `validate_silver_data` (lines 304-315). -/
structure ValidationResults where
  total_records : Nat
  unique_customers : Nat
  churned_count : Nat
  null_check : Nat
  segment_distribution : List (String × Nat)
deriving DecidableEq, Repr

/-- Lines 292-349: `validate_silver_data(engine)` re-queries counts from
the persisted staging table, logs them and writes them to a JSON file,
and returns them.  It is a total function of the persisted table alone:
it receives no in-memory counts, performs no comparison, and has no
failure path.  `customer_id` is a non-null text column in the model, so
the `IS NULL` count is the count of an always-false predicate. -/
def validate_silver_data (table : List SilverRow) : ValidationResults :=
  { total_records := table.length
    unique_customers := ((table.map (fun r => r.row.customer_id)).dedup).length
    churned_count := table.countP (fun r => r.row.churned == some true)
    null_check := table.countP (fun _r => false)
    segment_distribution := segmentDist table }

/-- Error taxonomy named by the specification (§7).  None of these names
occurs in the source; the constructors exist so that the spec-modelled
definitions below can be compared with the code-derived ones. -/
inductive PipelineError
  | SchemaMismatch
  | CoercionError
  | MaterializationMismatch
deriving DecidableEq, Repr

deriving instance DecidableEq for Except

/-- Modelled from the spec (§4.6): after materialization, re-query the
persisted counts and compare them with the in-memory counts of the
Data-Quality Gate, failing with `MaterializationMismatch` on any
disagreement (persisted record count vs the gate's final row count,
persisted null count vs zero, persisted residual duplicates vs zero).
The source has no such comparison; this definition follows the
specification's words and exists only for comparison. -/
def validate_silverSpec (report : TransformReport) (table : List SilverRow) :
    Except PipelineError ValidationResults :=
  let res := validate_silver_data table
  if res.total_records = report.final_rows ∧ res.null_check = 0 ∧
      res.total_records - res.unique_customers = 0 then
    Except.ok res
  else
    Except.error PipelineError.MaterializationMismatch

/-- Modelled from the spec (§4.2): boolean coercion that fails with
`CoercionError` on any raw value outside the mapped set.  The source maps
unmapped values to NaN instead; this definition follows the
specification's words and exists only for comparison. -/
def boolean_coerceSpec (s : String) : Except PipelineError Bool :=
  match boolean_mapping s with
  | some b => Except.ok b
  | none => Except.error PipelineError.CoercionError

/-- Lines 94-116: the static raw-name → snake_case mapping of step 1. -/
def column_mapping : List (String × String) :=
  [("customerID", "customer_id"),
   ("gender", "gender"),
   ("SeniorCitizen", "senior_citizen"),
   ("Partner", "partner"),
   ("Dependents", "dependents"),
   ("tenure", "tenure"),
   ("PhoneService", "phone_service"),
   ("MultipleLines", "multiple_lines"),
   ("InternetService", "internet_service"),
   ("OnlineSecurity", "online_security"),
   ("OnlineBackup", "online_backup"),
   ("DeviceProtection", "device_protection"),
   ("TechSupport", "tech_support"),
   ("StreamingTV", "streaming_tv"),
   ("StreamingMovies", "streaming_movies"),
   ("Contract", "contract_type"),
   ("PaperlessBilling", "paperless_billing"),
   ("PaymentMethod", "payment_method"),
   ("MonthlyCharges", "monthly_charges"),
   ("TotalCharges", "total_charges"),
   ("Churn", "churn")]

/-- Line 117: `df_clean.rename(columns=column_mapping, inplace=True)`.
Pandas `rename` relabels each column present in the mapping and leaves
every other label (and every absent mapping key) alone; it raises no
error for any input column set. -/
def rename_columns (cols : List String) : List String :=
  cols.map (fun c => ((column_mapping.lookup c).getD c))

/-- The raw column names, in source order. -/
def raw_columns : List String :=
  column_mapping.map (fun p => p.1)

/-- The canonical snake_case column names, in source order. -/
def canonical_columns : List String :=
  column_mapping.map (fun p => p.2)

/-- Modelled from the spec (§4.1): a Schema Normalizer that fails with
`SchemaMismatch` when a required raw column is absent and otherwise
applies the static rename.  The source's rename never fails; this
definition follows the specification's words and exists only for
comparison. -/
def schema_normalizeSpec (cols : List String) :
    Except PipelineError (List String) :=
  if column_mapping.all (fun p => cols.contains p.1) then
    Except.ok (rename_columns cols)
  else
    Except.error PipelineError.SchemaMismatch

/-- Check whether `pat` occurs as a contiguous substring of a character
list (model of Python's `in` on strings). -/
def hasSub (pat : List Char) : List Char → Bool
  | [] => pat.isEmpty
  | c :: cs => pat.isPrefixOf (c :: cs) || hasSub pat cs

/-- Line 88 of modeling.py: the condition under which a statement failure
is swallowed — `"does not exist"` or `"already exists"` occurs in
`str(e).lower()`. -/
def is_benign_error (e : String) : Bool :=
  hasSub (String.toList "does not exist") (toLowerStr e).toList ||
    hasSub (String.toList "already exists") (toLowerStr e).toList

/-- Lines 73-94 of modeling.py: execute the split statements in order.
`exec stmt = none` models a statement that executes cleanly and
`some msg` one that raises a store error with message `msg`.  Empty
statements and comment lines are skipped; a benign error is logged and
the loop continues; any other error is re-raised, aborting the run with
that error (`some msg` result). -/
def build_gold_models (exec : String → Option String) :
    List String → Option String
  | [] => none
  | stmt :: rest =>
      if stmt.isEmpty || (String.toList "--").isPrefixOf stmt.toList then
        build_gold_models exec rest
      else
        match exec stmt with
        | none => build_gold_models exec rest
        | some e =>
            if is_benign_error e then build_gold_models exec rest
            else some e

/-- Modelled from the spec (C9's literal wording): swallow exactly the
errors whose message contains `"already exists"` or `"does not exist"`
verbatim (case-sensitive), re-raise every other error.  The source
lowercases the message first; this definition follows the claim's words
and exists only for comparison. -/
def build_gold_modelsSpec (exec : String → Option String) :
    List String → Option String
  | [] => none
  | stmt :: rest =>
      if stmt.isEmpty || (String.toList "--").isPrefixOf stmt.toList then
        build_gold_modelsSpec exec rest
      else
        match exec stmt with
        | none => build_gold_modelsSpec exec rest
        | some e =>
            if hasSub (String.toList "already exists") e.toList ||
                hasSub (String.toList "does not exist") e.toList then
              build_gold_modelsSpec exec rest
            else some e

/-- Replace every benign failure of `exec` by a clean success, leaving
other outcomes alone (used to state that swallowed errors do not affect
the rest of the run). -/
def maskBenign (exec : String → Option String) (s : String) : Option String :=
  match exec s with
  | none => none
  | some e => if is_benign_error e then none else some e

/-- The first record of the Kaggle source file. -/
def sampleRow : RawRow :=
  { customerID := "7590-VHVEG"
    gender := "Female"
    SeniorCitizen := 0
    Partner := "Yes"
    Dependents := "No"
    tenure := "1"
    PhoneService := "No"
    MultipleLines := "No phone service"
    InternetService := "DSL"
    OnlineSecurity := "No"
    OnlineBackup := "Yes"
    DeviceProtection := "No"
    TechSupport := "No"
    StreamingTV := "No"
    StreamingMovies := "No"
    Contract := "Month-to-month"
    PaperlessBilling := "Yes"
    PaymentMethod := "Electronic check"
    MonthlyCharges := "29.85"
    TotalCharges := "29.85"
    Churn := "No" }

example : to_numeric "29.85" = some (2985 / 100 : ℚ) := by with_unfolding_all decide
example : to_numeric " " = none := by decide
example : to_numeric "-3" = some (-3 : ℚ) := by with_unfolding_all decide
example : coerce_tenure "-3" = -3 := by with_unfolding_all decide
example : coerce_total " " = 0 := by with_unfolding_all decide
example : customer_segment 12 = "New" := by decide
example : customer_segment 36 = "Growing" := by decide
example : customer_segment 101 = "nan" := by decide

/-- Sample raw record of a brand-new customer: zero tenure and the
source's single-space placeholder for `TotalCharges`. -/
def rowZero : RawRow :=
  { sampleRow with tenure := "0", TotalCharges := " " }

/-- Sample raw record with a negative tenure cell. -/
def rowNeg : RawRow :=
  { sampleRow with tenure := "-3" }

/-- Sample raw record with a tenure above the top `pd.cut` bin edge. -/
def row101 : RawRow :=
  { sampleRow with tenure := "101" }

/-- Sample raw record with an unmapped boolean cell. -/
def rowMaybe : RawRow :=
  { sampleRow with Partner := "Maybe" }

lemma dupCountGo_add_dropDup_length (rows : List CleanRow) :
    ∀ seen, duplicatedCountGo seen rows + (drop_duplicates seen rows).length
      = rows.length := by
  induction rows with
  | nil => intro seen; simp [duplicatedCountGo, drop_duplicates]
  | cons a rs ih =>
      intro seen
      by_cases ha : a.customer_id ∈ seen
      · simp only [duplicatedCountGo, drop_duplicates, if_pos ha, List.length_cons]
        have := ih seen
        omega
      · simp only [duplicatedCountGo, drop_duplicates, if_neg ha, List.length_cons]
        have := ih (a.customer_id :: seen)
        omega

lemma dropDup_mem_not_seen (rows : List CleanRow) :
    ∀ seen r, r ∈ drop_duplicates seen rows → r.customer_id ∉ seen := by
  induction rows with
  | nil => intro seen r h; simp [drop_duplicates] at h
  | cons a rs ih =>
      intro seen r h
      by_cases ha : a.customer_id ∈ seen
      · rw [drop_duplicates, if_pos ha] at h
        exact ih seen r h
      · rw [drop_duplicates, if_neg ha] at h
        rcases List.mem_cons.1 h with rfl | h'
        · exact ha
        · intro hmem
          exact (ih _ r h') (List.mem_cons_of_mem _ hmem)

lemma dropDup_nodup (rows : List CleanRow) :
    ∀ seen, ((drop_duplicates seen rows).map (fun r => r.customer_id)).Nodup := by
  induction rows with
  | nil => intro seen; simp [drop_duplicates]
  | cons a rs ih =>
      intro seen
      by_cases ha : a.customer_id ∈ seen
      · rw [drop_duplicates, if_pos ha]
        exact ih seen
      · rw [drop_duplicates, if_neg ha]
        rw [List.map_cons, List.nodup_cons]
        refine ⟨?_, ih _⟩
        intro hmem
        rcases List.mem_map.1 hmem with ⟨y, hy, hid⟩
        have := dropDup_mem_not_seen rs _ y hy
        exact this (hid ▸ List.mem_cons_self _ _)

lemma dupCountGo_zero_dropDup (rows : List CleanRow) :
    ∀ seen, duplicatedCountGo seen rows = 0 → drop_duplicates seen rows = rows := by
  induction rows with
  | nil => intro seen _; rfl
  | cons a rs ih =>
      intro seen h
      by_cases ha : a.customer_id ∈ seen
      · rw [duplicatedCountGo, if_pos ha] at h
        omega
      · rw [duplicatedCountGo, if_neg ha] at h
        rw [drop_duplicates, if_neg ha, ih _ h]

lemma dedupStage_eq (rows : List CleanRow) :
    dedupStage rows = drop_duplicates [] rows := by
  unfold dedupStage
  by_cases h : 0 < duplicatedCount rows
  · rw [if_pos h]
  · rw [if_neg h]
    have h0 : duplicatedCountGo [] rows = 0 := by
      unfold duplicatedCount at h; omega
    exact (dupCountGo_zero_dropDup rows [] h0).symm

lemma dropDup_find_first (rows : List CleanRow) :
    ∀ seen r, r ∈ drop_duplicates seen rows →
      rows.find? (fun x => x.customer_id == r.customer_id) = some r := by
  induction rows with
  | nil => intro seen r h; simp [drop_duplicates] at h
  | cons a rs ih =>
      intro seen r h
      by_cases ha : a.customer_id ∈ seen
      · rw [drop_duplicates, if_pos ha] at h
        have hne : (a.customer_id == r.customer_id) = false := by
          rw [beq_eq_false_iff_ne]
          intro heq
          exact (dropDup_mem_not_seen rs seen r h) (heq ▸ ha)
        rw [List.find?_cons_of_neg _ (by simp [hne]), ih seen r h]
      · rw [drop_duplicates, if_neg ha] at h
        rcases List.mem_cons.1 h with rfl | h'
        · exact List.find?_cons_of_pos _ (by simp)
        · have hns := dropDup_mem_not_seen rs _ r h'
          have hne : (a.customer_id == r.customer_id) = false := by
            rw [beq_eq_false_iff_ne]
            intro heq
            exact hns (heq ▸ List.mem_cons_self _ _)
          rw [List.find?_cons_of_neg _ (by simp [hne]), ih _ r h']

lemma clampTenure_id (r : CleanRow) :
    (clampTenure r).customer_id = r.customer_id := by
  unfold clampTenure; split <;> rfl

lemma clampCharges_id (r : CleanRow) :
    (clampCharges r).customer_id = r.customer_id := by
  unfold clampCharges; split <;> rfl

lemma clampTenure_monthly (r : CleanRow) :
    (clampTenure r).monthly_charges = r.monthly_charges := by
  unfold clampTenure; split <;> rfl

lemma clampCharges_tenure (r : CleanRow) :
    (clampCharges r).tenure = r.tenure := by
  unfold clampCharges; split <;> rfl

lemma clampTenure_nonneg (r : CleanRow) : 0 ≤ (clampTenure r).tenure := by
  unfold clampTenure
  by_cases h : r.tenure < 0
  · rw [if_pos h]
  · rw [if_neg h]
    omega

lemma clampCharges_nonneg (r : CleanRow) :
    0 ≤ (clampCharges r).monthly_charges := by
  unfold clampCharges
  by_cases h : r.monthly_charges < 0
  · rw [if_pos h]
  · rw [if_neg h]
    exact le_of_not_lt h

lemma clampTenure_ne_iff (r : CleanRow) : ¬clampTenure r = r ↔ r.tenure < 0 := by
  unfold clampTenure
  by_cases h : r.tenure < 0
  · rw [if_pos h]
    refine iff_of_true (fun heq => ?_) h
    have ht : ({ r with tenure := 0 } : CleanRow).tenure = r.tenure := by rw [heq]
    simp only at ht
    omega
  · rw [if_neg h]
    simp [h]

lemma clampCharges_ne_iff (r : CleanRow) :
    ¬clampCharges r = r ↔ r.monthly_charges < 0 := by
  unfold clampCharges
  by_cases h : r.monthly_charges < 0
  · rw [if_pos h]
    refine iff_of_true (fun heq => ?_) h
    have hm : ({ r with monthly_charges := 0 } : CleanRow).monthly_charges
        = r.monthly_charges := by rw [heq]
    simp only at hm
    rw [← hm] at h
    exact absurd h (lt_irrefl 0)
  · rw [if_neg h]
    simp [h]

lemma clean_report_eq (df : List RawRow) :
    (clean_and_transform df).2.duplicates = duplicatedCount (df.map transformRow)
    ∧ (clean_and_transform df).2.invalid_tenure
        = invalidTenureCount (dedupStage (df.map transformRow))
    ∧ (clean_and_transform df).2.invalid_charges
        = invalidChargesCount (dedupStage (df.map transformRow))
    ∧ (clean_and_transform df).2.final_rows = (clean_and_transform df).1.length
    ∧ (clean_and_transform df).2.initial_rows = df.length := by
  refine ⟨rfl, rfl, rfl, rfl, rfl⟩

lemma clean_fst_eq (df : List RawRow) :
    (clean_and_transform df).1 =
      (if 0 < invalidChargesCount (dedupStage (df.map transformRow)) then
        (if 0 < invalidTenureCount (dedupStage (df.map transformRow)) then
            (dedupStage (df.map transformRow)).map clampTenure
          else dedupStage (df.map transformRow)).map clampCharges
      else
        if 0 < invalidTenureCount (dedupStage (df.map transformRow)) then
          (dedupStage (df.map transformRow)).map clampTenure
        else dedupStage (df.map transformRow)) := rfl

lemma clean_fst_length (df : List RawRow) :
    (clean_and_transform df).1.length = (dedupStage (df.map transformRow)).length := by
  rw [clean_fst_eq]
  split <;> split <;> simp [List.length_map]

lemma clean_fst_ids (df : List RawRow) :
    (clean_and_transform df).1.map (fun r => r.customer_id)
      = (dedupStage (df.map transformRow)).map (fun r => r.customer_id) := by
  rw [clean_fst_eq]
  split <;> split <;>
    simp [List.map_map, Function.comp_def, clampTenure_id, clampCharges_id]

lemma clean_fst_ids_nodup (df : List RawRow) :
    ((clean_and_transform df).1.map (fun r => r.customer_id)).Nodup := by
  rw [clean_fst_ids, dedupStage_eq]
  exact dropDup_nodup _ []

/-- C2 counterexample: the claim asserts `Loyal` for every tenure above
36 with no upper limit, but the `pd.cut` bins stop at 100, so a record
with tenure 101 falls outside every bucket and its derived segment is
the string `"nan"`, not `"Loyal"`. -/
theorem customer_segment_above_cap_not_loyal :
    (transformRow row101).tenure = 101
    ∧ 36 < (transformRow row101).tenure
    ∧ (transformRow row101).customer_segment = "nan"
    ∧ ("nan" : String) ≠ "Loyal" := by
  refine ⟨?_, ?_, ?_, ?_⟩ <;> with_unfolding_all decide

/-- C2 (amended): `customer_segment` is `New` exactly on `[0, 12]`
(tenure 12 included), `Growing` exactly on `(12, 36]` (tenure 36
included), `Loyal` exactly on `(36, 100]`, and any tenure outside
`[0, 100]` falls in no `pd.cut` bucket and is rendered `"nan"`. -/
theorem customer_segment_characterization (t : Int) :
    (customer_segment t = "New" ↔ 0 ≤ t ∧ t ≤ 12)
    ∧ (customer_segment t = "Growing" ↔ 12 < t ∧ t ≤ 36)
    ∧ (customer_segment t = "Loyal" ↔ 36 < t ∧ t ≤ 100)
    ∧ (customer_segment t = "nan" ↔ t < 0 ∨ 100 < t) := by
  unfold customer_segment
  split_ifs with h1 h2 h3
  all_goals refine ⟨?_, ?_, ?_, ?_⟩
  all_goals first
    | exact iff_of_true rfl (by omega)
    | exact iff_of_false (by decide) (by omega)

/-- C3 counterexample: a boolean-typed cell holding `"Maybe"` (outside
the mapped value set) is not fatal — the run completes, the record is
kept, and the cell is coerced to a missing value (`none`); only the
spec-modelled coercer produces a `CoercionError`. -/
theorem boolean_unmapped_value_not_fatal :
    ((clean_and_transform [rowMaybe]).1.map (fun r => r.partner)) = [none]
    ∧ (clean_and_transform [rowMaybe]).1.length = 1
    ∧ boolean_coerceSpec "Maybe" = Except.error PipelineError.CoercionError := by
  refine ⟨?_, ?_, ?_⟩ <;> with_unfolding_all decide

/-- C3 (amended): for the boolean columns (`partner`, `dependents`,
`phone_service`, `paperless_billing`) any raw value outside
`{"Yes", "No", "No phone service", "No internet service"}` is silently
mapped to a missing value (NaN) rather than raising any error, and the
`churned` column uses the two-entry map `{"Yes", "No"}`, likewise
sending every other value to missing; the transformation never fails on
such values. -/
theorem boolean_unmapped_maps_to_null :
    (∀ s : String, s ≠ "Yes" → s ≠ "No" → s ≠ "No phone service" →
      s ≠ "No internet service" → boolean_mapping s = none)
    ∧ (∀ s : String, s ≠ "Yes" → s ≠ "No" → churn_map s = none)
    ∧ (∀ r : RawRow,
        (transformRow r).partner = boolean_mapping r.Partner
        ∧ (transformRow r).dependents = boolean_mapping r.Dependents
        ∧ (transformRow r).phone_service = boolean_mapping r.PhoneService
        ∧ (transformRow r).paperless_billing = boolean_mapping r.PaperlessBilling
        ∧ (transformRow r).churned = churn_map r.Churn) := by
  refine ⟨?_, ?_, ?_⟩
  · intro s h1 h2 h3 h4
    simp [boolean_mapping, h1, h2, h3, h4]
  · intro s h1 h2
    simp [churn_map, h1, h2]
  · intro r
    exact ⟨rfl, rfl, rfl, rfl, rfl⟩

/-- Witness for C3's amended theorem at the concrete value `"Maybe"`. -/
theorem boolean_unmapped_maps_to_null_witness :
    boolean_mapping "Maybe" = none
    ∧ churn_map "Maybe" = none
    ∧ (transformRow sampleRow).partner = boolean_mapping sampleRow.Partner :=
  ⟨boolean_unmapped_maps_to_null.1 "Maybe" (by decide) (by decide) (by decide)
      (by decide),
    boolean_unmapped_maps_to_null.2.1 "Maybe" (by decide) (by decide),
    (boolean_unmapped_maps_to_null.2.2 sampleRow).1⟩

/-- C6: `avg_monthly_revenue` equals `total_charge / tenure` whenever the
coerced tenure is positive and equals `monthly_charge` when it is zero;
and the spec's scenario — raw tenure `"0"`, `TotalCharges` a single
space, `MonthlyCharges` `"29.85"` — coerces to `total_charges = 0`,
`avg_monthly_revenue = 29.85`, `customer_segment = "New"`. -/
theorem avg_monthly_revenue_cases (r : RawRow) :
    (0 < (transformRow r).tenure →
      (transformRow r).avg_monthly_revenue
        = (transformRow r).total_charges / ((transformRow r).tenure : ℚ))
    ∧ ((transformRow r).tenure = 0 →
      (transformRow r).avg_monthly_revenue = (transformRow r).monthly_charges)
    ∧ ((transformRow rowZero).total_charges = 0
        ∧ (transformRow rowZero).avg_monthly_revenue = 29.85
        ∧ (transformRow rowZero).customer_segment = "New") := by
  refine ⟨?_, ?_, ?_, ?_, ?_⟩
  · intro h
    have h2 : 0 < coerce_tenure r.tenure := h
    show avg_revenue (coerce_tenure r.tenure) (coerce_total r.TotalCharges)
        (coerce_charge r.MonthlyCharges)
      = coerce_total r.TotalCharges / ((coerce_tenure r.tenure : Int) : ℚ)
    unfold avg_revenue
    rw [if_pos h2]
  · intro h
    show avg_revenue (coerce_tenure r.tenure) (coerce_total r.TotalCharges)
        (coerce_charge r.MonthlyCharges)
      = coerce_charge r.MonthlyCharges
    have h' : ¬(0 < (coerce_tenure r.tenure)) := by
      have : coerce_tenure r.tenure = 0 := h
      omega
    unfold avg_revenue
    rw [if_neg h']
  · with_unfolding_all decide
  · with_unfolding_all decide
  · with_unfolding_all decide

/-- Witness for C6 at two concrete records: `sampleRow` has coerced
tenure 1 > 0 and `rowZero` has coerced tenure 0. -/
theorem avg_monthly_revenue_cases_witness :
    (transformRow sampleRow).avg_monthly_revenue
      = (transformRow sampleRow).total_charges
          / ((transformRow sampleRow).tenure : ℚ)
    ∧ (transformRow rowZero).avg_monthly_revenue
      = (transformRow rowZero).monthly_charges :=
  ⟨(avg_monthly_revenue_cases sampleRow).1 (by with_unfolding_all decide),
    (avg_monthly_revenue_cases rowZero).2.1 (by with_unfolding_all decide)⟩

/-- C7: the staging load uses `if_exists='replace'`, so a second run on
the same raw input yields exactly the state a single run yields, the
final table never depends on what the store held before, and the loaded
table holds exactly one row per cleaned record (no accumulation). -/
theorem silver_load_replace_idempotent (raw : List RawRow) (ts : Nat)
    (st st' : Option (List SilverRow)) :
    load_to_silver (clean_and_transform raw).1 ts
        (load_to_silver (clean_and_transform raw).1 ts st)
      = load_to_silver (clean_and_transform raw).1 ts st
    ∧ load_to_silver (clean_and_transform raw).1 ts st
      = load_to_silver (clean_and_transform raw).1 ts st'
    ∧ ((load_to_silver (clean_and_transform raw).1 ts st).getD []).length
      = (clean_and_transform raw).1.length := by
  refine ⟨rfl, rfl, ?_⟩
  simp [load_to_silver]

/-- C8 counterexample: with the `customerID` column (among others)
absent, pandas `rename` completes without any error and returns the
present labels unchanged/renamed, while only the spec-modelled Schema
Normalizer fails with `SchemaMismatch`. -/
theorem rename_missing_column_not_fatal :
    rename_columns ["gender"] = ["gender"]
    ∧ schema_normalizeSpec ["gender"]
        = Except.error PipelineError.SchemaMismatch := by
  refine ⟨?_, ?_⟩ <;> decide

/-- C8 (amended): the rename step is total — it maps every present raw
column name through the static `column_mapping` (absent columns raise no
error at this step; a missing column can only surface later, when a
subsequent step accesses it), preserves the column count, and sends the
full raw header exactly to the canonical snake_case header. -/
theorem rename_static_mapping_total :
    (∀ cols : List String, (rename_columns cols).length = cols.length)
    ∧ (∀ (cols : List String) (c : String), c ∈ cols →
        ((column_mapping.lookup c).getD c) ∈ rename_columns cols)
    ∧ rename_columns raw_columns = canonical_columns
    ∧ schema_normalizeSpec raw_columns = Except.ok canonical_columns := by
  refine ⟨?_, ?_, ?_, ?_⟩
  · intro cols
    simp [rename_columns]
  · intro cols c hc
    exact List.mem_map_of_mem _ hc
  · decide
  · decide

/-- Witness for C8's amended theorem at the concrete column `"customerID"`. -/
theorem rename_static_mapping_total_witness :
    ((column_mapping.lookup "customerID").getD "customerID")
      ∈ rename_columns raw_columns :=
  rename_static_mapping_total.2.1 raw_columns "customerID" (by decide)

/-- C10: `clean_and_transform` works on a copy (line 87) and every
statement of its body targets that copy, so after the call the caller's
raw record set is exactly what it was before, and the returned value is
the cleaned set. -/
theorem clean_and_transform_preserves_input (df : List RawRow) :
    (clean_and_transform_call df).1 = df
    ∧ (clean_and_transform_call df).2 = clean_and_transform df :=
  ⟨rfl, rfl⟩

/-- Store stub whose first gold statement fails with a lowercase benign
message. -/
def execBenign : String → Option String :=
  fun s => if s = "CREATE TABLE gold.churn_summary" then
    some "relation already exists" else none

/-- Store stub whose first gold statement fails with an uppercase
message. -/
def execUpper : String → Option String :=
  fun s => if s = "CREATE TABLE gold.churn_summary" then
    some "ALREADY EXISTS" else none

/-- A persisted staging table holding a single row (a partial write
relative to a two-row in-memory record set). -/
def shortTable : List SilverRow :=
  [{ row := transformRow sampleRow, ingestion_timestamp := 0 }]

/-- In-memory gate counts for a run that cleaned two records. -/
def mismatchReport : TransformReport :=
  { initial_rows := 2, final_rows := 2, rows_removed := 0, duplicates := 0,
    invalid_tenure := 0, invalid_charges := 0 }

lemma build_mask_eq (exec : String → Option String) :
    ∀ stmts, build_gold_models (maskBenign exec) stmts
      = build_gold_models exec stmts := by
  intro stmts
  induction stmts with
  | nil => rfl
  | cons s rest ih =>
      cases hs : (s.isEmpty || (String.toList "--").isPrefixOf s.toList) with
      | false =>
          simp only [build_gold_models]
          rw [hs]
          cases he : exec s with
          | none => simp [maskBenign, he, ih]
          | some e =>
              cases hb : is_benign_error e with
              | false => simp [maskBenign, he, hb]
              | true => simp [maskBenign, he, hb, ih]
      | true =>
          simp only [build_gold_models]
          rw [hs]
          simp [ih]

/-- C9 counterexample: a store error whose message is the uppercase
`"ALREADY EXISTS"` does not contain the literal `"already exists"`, so
under the claim's wording it is "any other execution error" and must
abort; the code lowercases the message first, swallows it, and the run
completes (`none`), while the claim-literal runner aborts with the
error. -/
theorem benign_match_case_insensitive_cex :
    build_gold_models execUpper
        ["CREATE TABLE gold.churn_summary", "SELECT 1"] = none
    ∧ build_gold_modelsSpec execUpper
        ["CREATE TABLE gold.churn_summary", "SELECT 1"] = some "ALREADY EXISTS"
    ∧ hasSub (String.toList "already exists")
        (String.toList "ALREADY EXISTS") = false := by
  refine ⟨?_, ?_, ?_⟩ <;> decide

/-- C9 (amended): the benign-error test is applied to the lowercased
message — a statement failing with a message whose lowercase form
contains `"already exists"` or `"does not exist"` is swallowed and the
loop continues with the remaining statements (and replacing any such
benign failure by a clean success never changes the run's outcome);
an error whose lowercase form contains neither substring is re-raised
and aborts the run with that error. -/
theorem gold_script_error_policy (exec : String → Option String)
    (stmt e : String) (rest stmts : List String)
    (hne : stmt.isEmpty = false)
    (hnc : (String.toList "--").isPrefixOf stmt.toList = false)
    (he : exec stmt = some e) :
    (is_benign_error e = true →
      build_gold_models exec (stmt :: rest) = build_gold_models exec rest)
    ∧ (is_benign_error e = false →
      build_gold_models exec (stmt :: rest) = some e)
    ∧ build_gold_models (maskBenign exec) stmts
      = build_gold_models exec stmts := by
  have hcond : (stmt.isEmpty || (String.toList "--").isPrefixOf stmt.toList)
      = false := by rw [hne, hnc]; rfl
  refine ⟨?_, ?_, build_mask_eq exec stmts⟩
  · intro hb
    simp only [build_gold_models]
    rw [hcond]
    simp [he, hb]
  · intro hb
    simp only [build_gold_models]
    rw [hcond]
    simp [he, hb]

/-- Witness for C9's amended theorem: a concrete `"relation already
exists"` failure on the first statement is swallowed and the run
continues with the rest of the script. -/
theorem gold_script_error_policy_witness :
    build_gold_models execBenign
        ["CREATE TABLE gold.churn_summary", "SELECT 1"]
      = build_gold_models execBenign ["SELECT 1"] :=
  (gold_script_error_policy execBenign "CREATE TABLE gold.churn_summary"
      "relation already exists" ["SELECT 1"] [] (by decide) (by decide)
      (by decide)).1 (by decide)

/-- C4: the staged output of `clean_and_transform` has pairwise-distinct
`customer_id`s; the duplicate counter plus the number of staged rows
equals the number of raw rows (the counter counts exactly the dropped
rows); every record surviving duplicate removal is the first record of
the transformed input bearing its id (source-file order); and two raw
rows sharing id `"7590-VHVEG"` yield one staged record with a duplicate
counter of 1. -/
theorem dedup_keeps_first_unique (raw : List RawRow) :
    ((clean_and_transform raw).1.map (fun r => r.customer_id)).Nodup
    ∧ (clean_and_transform raw).2.duplicates
        + (clean_and_transform raw).1.length = raw.length
    ∧ (∀ r ∈ dedupStage (raw.map transformRow),
        (raw.map transformRow).find?
            (fun x => x.customer_id == r.customer_id) = some r)
    ∧ (clean_and_transform [sampleRow, { sampleRow with tenure := "5" }]).1.length = 1
    ∧ (clean_and_transform
        [sampleRow, { sampleRow with tenure := "5" }]).2.duplicates = 1 := by
  refine ⟨clean_fst_ids_nodup raw, ?_, ?_, ?_, ?_⟩
  · rw [clean_fst_length, (clean_report_eq raw).1, dedupStage_eq]
    have h1 := dupCountGo_add_dropDup_length (raw.map transformRow) []
    have h2 : (raw.map transformRow).length = raw.length := by simp
    unfold duplicatedCount
    omega
  · intro r hr
    rw [dedupStage_eq] at hr
    exact dropDup_find_first _ [] r hr
  · with_unfolding_all decide
  · with_unfolding_all decide

/-- Witness for C4 at a concrete one-row input: the surviving record is
the first (only) transformed record with its id. -/
theorem dedup_keeps_first_unique_witness :
    ([sampleRow].map transformRow).find?
        (fun x => x.customer_id == (transformRow sampleRow).customer_id)
      = some (transformRow sampleRow) :=
  (dedup_keeps_first_unique [sampleRow]).2.2.1 (transformRow sampleRow)
    (by with_unfolding_all decide)

lemma countP_clampTenure_ne (rows : List CleanRow) :
    rows.countP (fun r => decide (¬clampTenure r = r))
      = invalidTenureCount rows := by
  unfold invalidTenureCount
  refine List.countP_congr ?_
  intro a _
  simp only [decide_eq_true_eq]
  exact clampTenure_ne_iff a

lemma countP_clampCharges_ne (rows : List CleanRow) :
    rows.countP (fun r => decide (¬clampCharges r = r))
      = invalidChargesCount rows := by
  unfold invalidChargesCount
  refine List.countP_congr ?_
  intro a _
  simp only [decide_eq_true_eq]
  exact clampCharges_ne_iff a

lemma invalidCharges_map_clampTenure (rows : List CleanRow) :
    invalidChargesCount (rows.map clampTenure) = invalidChargesCount rows := by
  unfold invalidChargesCount
  rw [List.countP_map]
  refine List.countP_congr ?_
  intro a _
  simp [Function.comp_def, clampTenure_monthly]

lemma clean_fst_nonneg (raw : List RawRow) :
    ∀ r ∈ (clean_and_transform raw).1,
      0 ≤ r.tenure ∧ 0 ≤ r.monthly_charges := by
  intro r hr
  rw [clean_fst_eq] at hr
  by_cases hic : 0 < invalidChargesCount (dedupStage (raw.map transformRow))
  · rw [if_pos hic] at hr
    rcases List.mem_map.1 hr with ⟨y, hy, rfl⟩
    refine ⟨?_, clampCharges_nonneg y⟩
    rw [clampCharges_tenure]
    by_cases hit : 0 < invalidTenureCount (dedupStage (raw.map transformRow))
    · rw [if_pos hit] at hy
      rcases List.mem_map.1 hy with ⟨z, hz, rfl⟩
      exact clampTenure_nonneg z
    · rw [if_neg hit] at hy
      have h0 : invalidTenureCount (dedupStage (raw.map transformRow)) = 0 := by
        omega
      have h1 := List.countP_eq_zero.mp h0 y hy
      simp at h1
      omega
  · rw [if_neg hic] at hr
    have hic0 : invalidChargesCount (dedupStage (raw.map transformRow)) = 0 := by
      omega
    by_cases hit : 0 < invalidTenureCount (dedupStage (raw.map transformRow))
    · rw [if_pos hit] at hr
      rcases List.mem_map.1 hr with ⟨z, hz, rfl⟩
      refine ⟨clampTenure_nonneg z, ?_⟩
      rw [clampTenure_monthly]
      have h1 := List.countP_eq_zero.mp hic0 z hz
      simp at h1
      exact h1
    · rw [if_neg hit] at hr
      have hit0 : invalidTenureCount (dedupStage (raw.map transformRow)) = 0 := by
        omega
      have h1 := List.countP_eq_zero.mp hit0 r hr
      have h2 := List.countP_eq_zero.mp hic0 r hr
      simp at h1 h2
      exact ⟨by omega, h2⟩

/-- C5: after the Data-Quality Gate every staged record has
`tenure ≥ 0` and `monthly_charges ≥ 0`; no record is discarded by the
repair (the staged row count equals the post-dedup row count); each
repair counter equals exactly the number of records its clamp alters
(counted on the frame the clamp is applied to); and the scenario — a
raw tenure `"-3"` — stages tenure 0 with a tenure-repair counter of 1. -/
theorem range_repair_clamps_and_counts (raw : List RawRow) :
    (∀ r ∈ (clean_and_transform raw).1,
      0 ≤ r.tenure ∧ 0 ≤ r.monthly_charges)
    ∧ (clean_and_transform raw).1.length
        = (dedupStage (raw.map transformRow)).length
    ∧ (clean_and_transform raw).2.invalid_tenure
        = (dedupStage (raw.map transformRow)).countP
            (fun r => decide (¬clampTenure r = r))
    ∧ (clean_and_transform raw).2.invalid_charges
        = (if 0 < invalidTenureCount (dedupStage (raw.map transformRow)) then
              (dedupStage (raw.map transformRow)).map clampTenure
            else dedupStage (raw.map transformRow)).countP
            (fun r => decide (¬clampCharges r = r))
    ∧ ((clean_and_transform [rowNeg]).1.map (fun r => r.tenure)) = [0]
    ∧ (clean_and_transform [rowNeg]).2.invalid_tenure = 1 := by
  refine ⟨clean_fst_nonneg raw, clean_fst_length raw, ?_, ?_, ?_, ?_⟩
  · rw [(clean_report_eq raw).2.1, countP_clampTenure_ne]
  · rw [(clean_report_eq raw).2.2.1]
    by_cases hit : 0 < invalidTenureCount (dedupStage (raw.map transformRow))
    · rw [if_pos hit, countP_clampCharges_ne, invalidCharges_map_clampTenure]
    · rw [if_neg hit, countP_clampCharges_ne]
  · with_unfolding_all decide
  · with_unfolding_all decide

/-- Witness for C5 at the concrete raw record with tenure `"-3"`: the
staged record is its clamped form and satisfies both bounds. -/
theorem range_repair_clamps_and_counts_witness :
    0 ≤ (clampTenure (transformRow rowNeg)).tenure
    ∧ 0 ≤ (clampTenure (transformRow rowNeg)).monthly_charges :=
  (range_repair_clamps_and_counts [rowNeg]).1 (clampTenure (transformRow rowNeg))
    (by with_unfolding_all decide)

lemma validate_fields (table : List SilverRow) :
    (validate_silver_data table).total_records = table.length
    ∧ (validate_silver_data table).unique_customers
        = ((table.map (fun r => r.row.customer_id)).dedup).length
    ∧ (validate_silver_data table).null_check
        = table.countP (fun _r => false) :=
  ⟨rfl, rfl, rfl⟩

/-- C1 counterexample: with a persisted table holding one row while the
gate computed two, the code's validation step still completes normally
and simply reports the persisted counts (`total_records = 1`) — it
performs no comparison and raises nothing; only the spec-modelled
validator fails with `MaterializationMismatch` on the same input. -/
theorem validate_silver_counts_mismatch_not_fatal :
    (validate_silver_data shortTable).total_records = 1
    ∧ mismatchReport.final_rows = 2
    ∧ validate_silver_data shortTable =
        { total_records := 1, unique_customers := 1, churned_count := 0,
          null_check := 0, segment_distribution := [("New", 1)] }
    ∧ validate_silverSpec mismatchReport shortTable
        = Except.error PipelineError.MaterializationMismatch := by
  refine ⟨?_, ?_, ?_, ?_⟩ <;> with_unfolding_all decide

/-- C1 (amended): after the load, `validate_silver_data` re-queries the
persisted staging table and returns its counts without comparing them to
anything and without any failure path; in an actual run those persisted
counts necessarily agree with the gate's in-memory counts — the
persisted record count and distinct-customer count both equal the
report's final row count, and the persisted null count is zero. -/
theorem validate_silver_requery_consistent (raw : List RawRow) (ts : Nat)
    (st : Option (List SilverRow)) :
    (validate_silver_data
        ((load_to_silver (clean_and_transform raw).1 ts st).getD [])).total_records
      = (clean_and_transform raw).2.final_rows
    ∧ (validate_silver_data
        ((load_to_silver (clean_and_transform raw).1 ts st).getD [])).unique_customers
      = (clean_and_transform raw).2.final_rows
    ∧ (validate_silver_data
        ((load_to_silver (clean_and_transform raw).1 ts st).getD [])).null_check
      = 0 := by
  have htab : (load_to_silver (clean_and_transform raw).1 ts st).getD []
      = (clean_and_transform raw).1.map
          (fun r => ({ row := r, ingestion_timestamp := ts } : SilverRow)) := rfl
  have hfields := validate_fields
      ((clean_and_transform raw).1.map
        (fun r => ({ row := r, ingestion_timestamp := ts } : SilverRow)))
  refine ⟨?_, ?_, ?_⟩
  · rw [htab, hfields.1, List.length_map, (clean_report_eq raw).2.2.2.1]
  · rw [htab, hfields.2.1, List.map_map]
    have hids : (clean_and_transform raw).1.map
        ((fun r : SilverRow => r.row.customer_id) ∘
          (fun r => ({ row := r, ingestion_timestamp := ts } : SilverRow)))
        = (clean_and_transform raw).1.map (fun r => r.customer_id) := by
      simp [Function.comp_def]
    rw [hids, List.dedup_eq_self.mpr (clean_fst_ids_nodup raw),
      List.length_map, (clean_report_eq raw).2.2.2.1]
  · rw [htab, hfields.2.2]
    simp
